import Mathlib

/-!
Verification of the per-guild playback orchestrator of the Music repository
(src/bot.py and its near-duplicate src/musicbot_247_flask.py).

The two Python files implement the same orchestrator: a per-guild
`wavelink.Player` carrying a FIFO `queue` of tracks, a `current` track
(managed by the wavelink engine: set by `player.play`, cleared when a track
ends), a boolean `loop` flag, a user-facing `custom_volume`, the saved
`_earrape_prev_volume`, and an auto-disconnect timer task.

The shallow embedding below translates those operations into pure Lean
functions over an explicit `Player` state:

* external effects (`player.play`, `player.set_volume`, `player.disconnect`,
  message sends) are reflected as state fields (`current`, `node_volume`)
  and returned message strings;
* whether the external Lavalink node accepts a `set_volume` call is an
  explicit boolean parameter where a claim depends on it;
* the `asyncio` disconnect task is modelled by the decision its body takes
  when it fires (`timer_fire`), which reads the 24/7 settings at fire time,
  exactly as the closure in `schedule_auto_disconnect` does.
-/

/-- Source constant `EARRAPE_DEFAULT_SECONDS = 8` (src/bot.py line 39). -/
def EARRAPE_DEFAULT_SECONDS : Int := 8

/-- Source constant `EARRAPE_MAX_SECONDS = 30` (src/bot.py line 40). -/
def EARRAPE_MAX_SECONDS : Int := 30

/-- Source constant `EARRAPE_VOLUME = 400` (src/bot.py line 41). -/
def EARRAPE_VOLUME : Int := 400

/-- A resolved track descriptor.  In the source a wavelink track object with
a `title`, a `uri` and a `requester` attribute stamped by `cmd_play`
(`tr.requester = ctx.author`); `requester` is the stamping user id, absent
before stamping. -/
structure Track where
  title : String
  uri : String
  requester : Option Nat
deriving DecidableEq, Repr

/-- The per-guild player state set up by `connect_player_for`
(src/bot.py lines 145-163) plus the two fields the wavelink engine itself
manages (`current`, and the volume last pushed to the node, `node_volume`).
`disconnect_armed` records that `schedule_auto_disconnect` has an
outstanding task. -/
structure Player where
  queue : List Track
  current : Option Track
  loop : Bool
  custom_volume : Int
  earrape_prev_volume : Int
  node_volume : Int
  disconnect_armed : Bool
deriving DecidableEq, Repr

/-- The fresh player built by `connect_player_for` when no voice client
exists: empty queue, `loop = False`, `custom_volume = 100`,
`_earrape_prev_volume = 100` (src/bot.py lines 154-160). -/
def initPlayer : Player :=
  { queue := []
    current := none
    loop := false
    custom_volume := 100
    earrape_prev_volume := 100
    node_volume := 100
    disconnect_armed := false }

/-- `tr.requester = ctx.author` inside the enqueue loop of `cmd_play`
(src/bot.py line 405). -/
def stampRequester (rid : Nat) (t : Track) : Track :=
  { t with requester := some rid }

/-- The queue/playback effect of `cmd_play` (src/bot.py lines 380-415) once
the resolver has produced the track list `tracks` for requester `rid`:
every track is stamped with the requester and appended to the queue in
resolution order (`player.queue.put_wait(tr)`); afterwards, if
`not player.is_playing()` (no current track), the head of the queue is
popped (`player.queue.get()`) and played (`player.play(nxt)`), which makes
it the `current` track.  The source guards `if not tracks: return` before
this block, so `tracks` is non-empty there; the `[]` branch below is the
degenerate no-op. -/
def cmd_play (p : Player) (tracks : List Track) (rid : Nat) : Player :=
  let stamped := tracks.map (stampRequester rid)
  let p1 := { p with queue := p.queue ++ stamped }
  if p1.current.isSome then p1
  else
    match p1.queue with
    | [] => p1
    | nxt :: rest => { p1 with queue := rest, current := some nxt }

/-- The `on_wavelink_track_end` handler (src/bot.py lines 677-698;
identical logic in src/musicbot_247_flask.py lines 623-644), invoked when
`track` has just finished.  The wavelink engine has already cleared the
player's current track at that point (`p0`).  If `player.loop` is set the
handler replays the same finished track (`player.play(track)`); otherwise,
if the queue is non-empty it pops the head (`player.queue.get()`) and plays
it; otherwise, unless the guild's 24/7 flag `alwaysOn` is enabled, it arms
the auto-disconnect timer (`schedule_auto_disconnect`). -/
def on_wavelink_track_end (p : Player) (track : Track) (alwaysOn : Bool) : Player :=
  let p0 := { p with current := none }
  if p0.loop then { p0 with current := some track }
  else
    match p0.queue with
    | nxt :: rest => { p0 with current := some nxt, queue := rest }
    | [] => if alwaysOn then p0 else { p0 with disconnect_armed := true }

/-- The armed auto-disconnect task.  `schedule_auto_disconnect`
(src/bot.py lines 168-194) captures only the guild id and the delay in its
closure; it does NOT capture the 24/7 flag, which is re-read at fire
time. -/
structure ArmedTimer where
  guild_id : Nat
  delay : Nat
deriving DecidableEq, Repr

/-- Arming the timer: `schedule_auto_disconnect(player, guild_id, delay)`
cancels any previous task and creates a new one whose closure holds
`guild_id` and `delay` (src/bot.py lines 168-194). -/
def schedule_auto_disconnect (gid : Nat) (delay : Nat) : ArmedTimer :=
  { guild_id := gid, delay := delay }

/-- The decision the timer body `_task` takes once `asyncio.sleep(delay)`
returns (src/bot.py lines 175-192): returns `true` exactly when it
proceeds to `player.disconnect()`.  It first returns (no-op) if the player
`is_playing()` or is no longer connected, then if
`is_247_enabled(guild_id)` holds in the settings AS READ AT FIRE TIME,
then if the queue is non-empty. -/
def timer_fire (tm : ArmedTimer) (is_247_at_fire : Nat → Bool)
    (is_playing is_connected queue_empty : Bool) : Bool :=
  if is_playing || !is_connected then false
  else if is_247_at_fire tm.guild_id then false
  else if !queue_empty then false
  else true

/-- `cmd_volume` (src/bot.py lines 563-574) on a connected player:
`vol = max(0, min(vol, 1000))`, then `player.set_volume(vol)` is attempted
on the node.  If the node accepts, `player.custom_volume = vol` is recorded
and a success message is sent; if `set_volume` raises, the except branch
sends a node-error message and records nothing. -/
def cmd_volume (p : Player) (vol : Int) (nodeAccepts : Bool) : Player × String :=
  let v := max 0 (min vol 1000)
  if nodeAccepts then
    ({ p with node_volume := v, custom_volume := v },
      "Volume set to " ++ toString v ++ "%")
  else
    (p, "Could not set volume on the node.")

/-- The `Vol +` button `MusicControls.vol_up` (src/bot.py lines 355-364):
computes `new = min(1000, custom_volume + 10)`, attempts
`set_volume(new)` and records it inside a try whose except branch is
`pass`, then UNCONDITIONALLY reports `Volume set to new%`. -/
def vol_up (p : Player) (nodeAccepts : Bool) : Player × String :=
  let pv := p.custom_volume
  let nv := min 1000 (pv + 10)
  let p1 := if nodeAccepts then { p with node_volume := nv, custom_volume := nv } else p
  (p1, "Volume set to " ++ toString nv ++ "%")

/-- The volume-amplification block of `EarrapeConfirmModal.on_submit`
(src/bot.py lines 229-241) once all checks passed: saves
`prev_volume = player.custom_volume`, pushes
`ear_vol = min(EARRAPE_VOLUME, 1000)` to the node, and stores
`player._earrape_prev_volume = prev_volume`.  Note `custom_volume` itself
is NOT changed by this block. -/
def earrape_activate (p : Player) : Player :=
  let prev_volume := p.custom_volume
  let ear_vol := min EARRAPE_VOLUME 1000
  { p with node_volume := ear_vol, earrape_prev_volume := prev_volume }

/-- The scheduled restoration task `revert_after` of
`EarrapeConfirmModal.on_submit` (src/bot.py lines 250-267): after the
sleep it reads `prev = player._earrape_prev_volume`, pushes it to the node
and records `player.custom_volume = prev`. -/
def revert_after (p : Player) : Player :=
  let prev := p.earrape_prev_volume
  { p with node_volume := prev, custom_volume := prev }

/-- `cmd_stop` (src/bot.py lines 534-540) acting on
`ctx.voice_client : Option Player`: when no voice client exists it replies
`Not connected.` and changes nothing; otherwise it calls
`player.disconnect()`, which destroys the voice client (so the guild's
voice client becomes absent, taking the session state -- queue, current,
volumes -- with it) and replies `Stopped and disconnected.`. -/
def cmd_stop (vc : Option Player) : Option Player × String :=
  match vc with
  | none => (none, "Not connected.")
  | some _ => (none, "Stopped and disconnected.")

/-- The ASCII whitespace characters removed by Python `str.strip()`. -/
def pyIsSpace (c : Char) : Bool :=
  c = ' ' || c = '\t' || c = '\n' || c = '\r' || c = '\x0b' || c = '\x0c'

/-- Python `str.strip()` on the character list of a string: removes leading
and trailing whitespace. -/
def pyStrip (cs : List Char) : List Char :=
  ((cs.dropWhile pyIsSpace).reverse.dropWhile pyIsSpace).reverse

/-- ASCII uppercasing of one character, as Python `str.upper()` acts on the
ASCII range relevant here. -/
def pyUpperChar (c : Char) : Char :=
  if 'a' ≤ c && c ≤ 'z' then Char.ofNat (c.toNat - 32) else c

/-- Python `str.upper()` on the character list of a string. -/
def pyUpper (cs : List Char) : List Char := cs.map pyUpperChar

/-- Validity of the digit part of a Python `int(...)` literal after the
first digit: digits, with single underscores allowed only between
digits. -/
def pyDigitsTail : List Char → Bool
  | [] => true
  | c :: cs =>
    if c.isDigit then pyDigitsTail cs
    else if c = '_' then
      match cs with
      | [] => false
      | d :: rest => d.isDigit && pyDigitsTail rest
    else false

/-- Validity of the digit part of a Python `int(...)` literal: non-empty,
starts with a digit, underscores only between digits. -/
def pyDigitsOk : List Char → Bool
  | [] => false
  | c :: cs => c.isDigit && pyDigitsTail cs

/-- Numeric value of a valid digit sequence, skipping underscores. -/
def digitsVal (cs : List Char) : Nat :=
  cs.foldl (fun acc c => if c = '_' then acc else acc * 10 + (c.toNat - 48)) 0

/-- The behaviour of the Python builtin `int(s)` on the stripped duration
string (src/bot.py line 218, `int(self.duration.value.strip())`):
optional surrounding whitespace, an optional sign, then a non-empty digit
sequence with single underscores allowed between digits; anything else
raises, modelled as `none`. -/
def pyIntParse (s : String) : Option Int :=
  match pyStrip s.toList with
  | [] => none
  | '+' :: rest => if pyDigitsOk rest then some (Int.ofNat (digitsVal rest)) else none
  | '-' :: rest => if pyDigitsOk rest then some (-(Int.ofNat (digitsVal rest))) else none
  | cs => if pyDigitsOk cs then some (Int.ofNat (digitsVal cs)) else none

/-- The branch `EarrapeConfirmModal.on_submit` takes, in source order
(src/bot.py lines 208-241). -/
inductive SubmitOutcome where
  | notRequester
  | badConfirm
  | invalidDuration
  | nonPositiveDuration
  | activated (dur : Int)
deriving DecidableEq, Repr

/-- `EarrapeConfirmModal.on_submit` (src/bot.py lines 208-267): rejects a
submitter whose id differs from the stored `requester_id`; rejects a
confirmation text whose `.strip().upper()` is not `I AGREE`; rejects a
duration that `int(...)` cannot parse; rejects a parsed duration `<= 0`;
silently caps a duration above `EARRAPE_MAX_SECONDS` to that maximum; and
only then runs the amplification block (`earrape_activate`) and schedules
`revert_after`.  Every rejection sends an error message and returns before
any volume state is touched. -/
def on_submit (player : Player) (requester_id userId : Nat)
    (confirmText durText : String) : SubmitOutcome × Player :=
  if userId ≠ requester_id then (.notRequester, player)
  else if pyUpper (pyStrip confirmText.toList) ≠ "I AGREE".toList then (.badConfirm, player)
  else
    match pyIntParse durText with
    | none => (.invalidDuration, player)
    | some d =>
      if d ≤ 0 then (.nonPositiveDuration, player)
      else
        let dur := if d > EARRAPE_MAX_SECONDS then EARRAPE_MAX_SECONDS else d
        (.activated dur, earrape_activate player)

/-- Outcome of pressing the EARRAPE button on the controls panel. -/
inductive ButtonOutcome where
  | rejected
  | modalShown
deriving DecidableEq, Repr

/-- `MusicControls.earrape` (src/bot.py lines 336-342): a presser whose id
differs from the stored `requester_id` is rejected with an error message
and the confirmation modal is never shown. -/
def earrape_button (requester_id userId : Nat) : ButtonOutcome :=
  if userId ≠ requester_id then .rejected else .modalShown

/-- Concrete scenario fixture. -/
def trackA : Track := { title := "trackA", uri := "uriA", requester := none }

/-- Concrete scenario fixture. -/
def trackB : Track := { title := "trackB", uri := "uriB", requester := none }

/-- Concrete scenario fixture. -/
def trackC : Track := { title := "trackC", uri := "uriC", requester := none }

/-!  Theorems settling the claims. -/

/-- C1: for an idle session (no current track), an enqueue that resolves
tracks appends them to the queue in resolution order with the requester
stamped on each, and immediately pops the head of the queue into `current`
and starts playback; a subsequent track-ended pops the next head.
Scenario: starting empty, `enqueue(trackA)` yields `current = trackA` and
`queue = []`; then `enqueue(trackB)` and `enqueue(trackC)` yield
`queue = [trackB, trackC]`; `track-ended` yields `current = trackB` and
`queue = [trackC]`. -/
theorem c1_enqueue_idle_pops_head (p : Player) (t : Track) (ts : List Track) (rid : Nat)
    (hc : p.current = none) (hq : p.queue = []) :
    ((cmd_play p (t :: ts) rid).current = some (stampRequester rid t) ∧
      (cmd_play p (t :: ts) rid).queue = ts.map (stampRequester rid)) ∧
    ((cmd_play initPlayer [trackA] 7).current = some (stampRequester 7 trackA) ∧
      (cmd_play initPlayer [trackA] 7).queue = [] ∧
      (cmd_play (cmd_play (cmd_play initPlayer [trackA] 7) [trackB] 7) [trackC] 7).current
          = some (stampRequester 7 trackA) ∧
      (cmd_play (cmd_play (cmd_play initPlayer [trackA] 7) [trackB] 7) [trackC] 7).queue
          = [stampRequester 7 trackB, stampRequester 7 trackC] ∧
      (on_wavelink_track_end
          (cmd_play (cmd_play (cmd_play initPlayer [trackA] 7) [trackB] 7) [trackC] 7)
          (stampRequester 7 trackA) false).current = some (stampRequester 7 trackB) ∧
      (on_wavelink_track_end
          (cmd_play (cmd_play (cmd_play initPlayer [trackA] 7) [trackB] 7) [trackC] 7)
          (stampRequester 7 trackA) false).queue = [stampRequester 7 trackC]) := by
  constructor
  · constructor <;> simp [cmd_play, hc, hq]
  · decide

/-- Witness for C1 at the concrete empty session. -/
theorem c1_witness :
    (initPlayer.current = none ∧ initPlayer.queue = []) ∧
    (cmd_play initPlayer [trackA] 7).current = some (stampRequester 7 trackA) ∧
    (cmd_play initPlayer [trackA] 7).queue = List.map (stampRequester 7) [] := by
  have h := c1_enqueue_idle_pops_head initPlayer trackA [] 7 rfl rfl
  exact ⟨⟨rfl, rfl⟩, h.1.1, h.1.2⟩

/-- C3: with the track-loop flag set (`player.loop = True`), every
track-ended callback replays exactly the finished track, leaving the whole
player state (queue included) unchanged, for any number of consecutive
completions; the queue is not consulted. -/
theorem c3_track_loop_replays_same (p : Player) (t : Track) (ao : Bool) (n : Nat)
    (hl : p.loop = true) (hc : p.current = some t) :
    on_wavelink_track_end p t ao = p ∧
    (fun s => on_wavelink_track_end s t ao)^[n] p = p ∧
    (on_wavelink_track_end p t ao).queue = p.queue := by
  have h1 : on_wavelink_track_end p t ao = p := by
    cases p
    subst hl
    subst hc
    rfl
  have h2 : (fun s => on_wavelink_track_end s t ao)^[n] p = p := by
    induction n with
    | zero => rfl
    | succ k ih => rw [Function.iterate_succ_apply, h1, ih]
  exact ⟨h1, h2, by rw [h1]⟩

/-- Witness for C3: three consecutive completions of a looped player keep
playing the same track. -/
theorem c3_witness :
    on_wavelink_track_end { initPlayer with loop := true, current := some trackA } trackA false
        = { initPlayer with loop := true, current := some trackA } ∧
    (fun s => on_wavelink_track_end s trackA false)^[3]
        { initPlayer with loop := true, current := some trackA }
        = { initPlayer with loop := true, current := some trackA } := by
  have h := c3_track_loop_replays_same
    { initPlayer with loop := true, current := some trackA } trackA false 3 rfl rfl
  exact ⟨h.1, h.2.1⟩

/-- C4: `cmd_volume` clamps every integer input into [0, 1000] rather than
rejecting it: the stored volume is `max 0 (min v 1000)`, always within
bounds, with `set-volume(-50)` storing 0 and `set-volume(5000)` storing
1000. -/
theorem c4_volume_clamped (p : Player) (v : Int) :
    (cmd_volume p v true).1.custom_volume = max 0 (min v 1000) ∧
    0 ≤ (cmd_volume p v true).1.custom_volume ∧
    (cmd_volume p v true).1.custom_volume ≤ 1000 ∧
    (cmd_volume p (-50) true).1.custom_volume = 0 ∧
    (cmd_volume p 5000 true).1.custom_volume = 1000 := by
  refine ⟨rfl, ?_, ?_, ?_, ?_⟩
  · exact le_max_left _ _
  · exact max_le (by norm_num) (min_le_right _ _)
  · norm_num [cmd_volume]
  · norm_num [cmd_volume]

/-- C5: the armed auto-disconnect task captures only the guild id, never
the 24/7 flag; its body re-reads the flag at fire time, so whatever the
settings said when the timer was armed (here: 24/7 disabled), if the flag
reads true at fire time the fire is a no-op and never disconnects. -/
theorem c5_always_on_blocks_idle_fire (gid delay : Nat)
    (armSettings fireSettings : Nat → Bool)
    (playing connected qe : Bool)
    (_harm : armSettings gid = false) (hfire : fireSettings gid = true) :
    timer_fire (schedule_auto_disconnect gid delay) fireSettings playing connected qe
      = false := by
  unfold timer_fire schedule_auto_disconnect
  cases playing <;> cases connected <;> simp [hfire]

/-- Witness for C5: timer armed under a 24/7-off settings snapshot, flag
flipped on before expiry, the fire is a no-op. -/
theorem c5_witness :
    (fun _ : Nat => false) 1 = false ∧
    (fun _ : Nat => true) 1 = true ∧
    timer_fire (schedule_auto_disconnect 1 120) (fun _ => true) false true true = false :=
  ⟨rfl, rfl,
    c5_always_on_blocks_idle_fire 1 120 (fun _ => false) (fun _ => true) false true true
      rfl rfl⟩


/-- Branch lemma: `on_submit` when the submitter is not the stored
requester (src/bot.py lines 209-211). -/
theorem on_submit_not_req (player : Player) (rid uid : Nat) (c d : String)
    (h : uid ≠ rid) :
    on_submit player rid uid c d = (.notRequester, player) := by
  unfold on_submit
  rw [if_pos h]

/-- Branch lemma: `on_submit` when the confirmation text does not match
(src/bot.py lines 213-215). -/
theorem on_submit_bad_confirm (player : Player) (rid uid : Nat) (c d : String)
    (h1 : uid = rid) (h2 : pyUpper (pyStrip c.toList) ≠ "I AGREE".toList) :
    on_submit player rid uid c d = (.badConfirm, player) := by
  have hn1 : ¬ (uid ≠ rid) := fun hn => hn h1
  unfold on_submit
  rw [if_neg hn1, if_pos h2]

/-- Branch lemma: `on_submit` when the duration does not parse
(src/bot.py lines 217-221). -/
theorem on_submit_invalid (player : Player) (rid uid : Nat) (c d : String)
    (h3 : pyIntParse d = none) (h1 : uid = rid)
    (h2 : pyUpper (pyStrip c.toList) = "I AGREE".toList) :
    on_submit player rid uid c d = (.invalidDuration, player) := by
  have hn1 : ¬ (uid ≠ rid) := fun hn => hn h1
  have hn2 : ¬ (pyUpper (pyStrip c.toList) ≠ "I AGREE".toList) := fun hn => hn h2
  unfold on_submit
  rw [if_neg hn1, if_neg hn2, h3]

/-- Branch lemma: `on_submit` when the parsed duration is non-positive
(src/bot.py lines 223-224). -/
theorem on_submit_nonpos (player : Player) (rid uid : Nat) (c d : String) (k : Int)
    (h3 : pyIntParse d = some k) (h4 : k ≤ 0) (h1 : uid = rid)
    (h2 : pyUpper (pyStrip c.toList) = "I AGREE".toList) :
    on_submit player rid uid c d = (.nonPositiveDuration, player) := by
  have hn1 : ¬ (uid ≠ rid) := fun hn => hn h1
  have hn2 : ¬ (pyUpper (pyStrip c.toList) ≠ "I AGREE".toList) := fun hn => hn h2
  unfold on_submit
  rw [if_neg hn1, if_neg hn2, h3]
  simp only [if_pos h4]

/-- Branch lemma: `on_submit` when every check passes: the duration is
capped at `EARRAPE_MAX_SECONDS` and the amplification block runs
(src/bot.py lines 226-241). -/
theorem on_submit_ok (player : Player) (rid uid : Nat) (c d : String) (k : Int)
    (h1 : uid = rid) (h2 : pyUpper (pyStrip c.toList) = "I AGREE".toList)
    (h3 : pyIntParse d = some k) (h4 : 0 < k) :
    on_submit player rid uid c d =
      (.activated (if EARRAPE_MAX_SECONDS < k then EARRAPE_MAX_SECONDS else k),
        earrape_activate player) := by
  have hn1 : ¬ (uid ≠ rid) := fun hn => hn h1
  have hn2 : ¬ (pyUpper (pyStrip c.toList) ≠ "I AGREE".toList) := fun hn => hn h2
  have hn4 : ¬ (k ≤ 0) := by omega
  unfold on_submit
  rw [if_neg hn1, if_neg hn2, h3]
  simp only [if_neg hn4]

/-- Manual `cmd_volume` calls never touch the saved
`_earrape_prev_volume`. -/
theorem foldl_cmd_volume_preserves_prev (vols : List Int) (s : Player) :
    (vols.foldl (fun q v => (cmd_volume q v true).1) s).earrape_prev_volume
      = s.earrape_prev_volume := by
  induction vols generalizing s with
  | nil => rfl
  | cons v vs ih =>
    simp only [List.foldl_cons]
    rw [ih]
    rfl

/-- C6: activating loud-mode saves the pre-amplification `custom_volume`
into `_earrape_prev_volume`; no intervening sequence of manual
`cmd_volume` calls touches that saved value, so the scheduled
`revert_after` unconditionally restores it, overriding every manual change
made during the window.  Scenario: loud-mode at volume 40, then
`set-volume(80)` during the window (which does record 80), then the
restoration brings both the stored and the node volume back to 40. -/
theorem c6_restoration_overrides_manual (p : Player) (vols : List Int) :
    (revert_after
        (vols.foldl (fun q v => (cmd_volume q v true).1) (earrape_activate p))).custom_volume
      = p.custom_volume ∧
    (revert_after
        (vols.foldl (fun q v => (cmd_volume q v true).1) (earrape_activate p))).node_volume
      = p.custom_volume ∧
    ((cmd_volume (earrape_activate { initPlayer with custom_volume := 40 }) 80 true).1).custom_volume
      = 80 ∧
    (revert_after
        ((cmd_volume (earrape_activate { initPlayer with custom_volume := 40 }) 80 true).1)).custom_volume
      = 40 ∧
    (revert_after
        ((cmd_volume (earrape_activate { initPlayer with custom_volume := 40 }) 80 true).1)).node_volume
      = 40 := by
  have h := foldl_cmd_volume_preserves_prev vols (earrape_activate p)
  have h2 : (earrape_activate p).earrape_prev_volume = p.custom_volume := rfl
  exact ⟨h.trans h2, h.trans h2, by decide, by decide, by decide⟩

/-- C9: a loud-mode confirmation whose duration field does not parse as an
integer, or parses to a value at most zero, is rejected (never reaches the
activation outcome) and leaves the player state untouched; and when the
other checks pass, a parsed duration greater than 30 is silently capped to
30 seconds and the amplification proceeds. -/
theorem c9_duration_validation (player : Player) (rid uid : Nat) (c d : String) :
    ((pyIntParse d = none ∨ ∃ k, pyIntParse d = some k ∧ k ≤ 0) →
      (∀ dur, (on_submit player rid uid c d).1 ≠ .activated dur) ∧
      (on_submit player rid uid c d).2 = player) ∧
    (∀ k, pyIntParse d = some k → 30 < k → uid = rid →
      pyUpper (pyStrip c.toList) = "I AGREE".toList →
      (on_submit player rid uid c d).1 = .activated 30 ∧
      (on_submit player rid uid c d).2 = earrape_activate player) := by
  constructor
  · intro h
    by_cases h1 : uid = rid
    · by_cases h2 : pyUpper (pyStrip c.toList) = "I AGREE".toList
      · rcases h with hnone | ⟨k, hk, hk0⟩
        · rw [on_submit_invalid player rid uid c d hnone h1 h2]
          exact ⟨fun dur => by simp, rfl⟩
        · rw [on_submit_nonpos player rid uid c d k hk hk0 h1 h2]
          exact ⟨fun dur => by simp, rfl⟩
      · rw [on_submit_bad_confirm player rid uid c d h1 h2]
        exact ⟨fun dur => by simp, rfl⟩
    · rw [on_submit_not_req player rid uid c d h1]
      exact ⟨fun dur => by simp, rfl⟩
  · intro k hk hk30 h1 h2
    rw [on_submit_ok player rid uid c d k h1 h2 hk (by omega)]
    have hcap : EARRAPE_MAX_SECONDS < k := by
      unfold EARRAPE_MAX_SECONDS
      omega
    rw [if_pos hcap]
    exact ⟨rfl, rfl⟩

/-- Witness for C9: duration text `abc` is rejected leaving the player
untouched, and duration text `99` is capped to an activation of 30
seconds. -/
theorem c9_witness :
    (pyIntParse "abc" = none ∨ ∃ k, pyIntParse "abc" = some k ∧ k ≤ 0) ∧
    (on_submit initPlayer 1 1 "I AGREE" "abc").2 = initPlayer ∧
    pyIntParse "99" = some 99 ∧
    (on_submit initPlayer 1 1 "I AGREE" "99").1 = .activated 30 := by
  refine ⟨Or.inl rfl, ?_, rfl, ?_⟩
  · exact ((c9_duration_validation initPlayer 1 1 "I AGREE" "abc").1 (Or.inl rfl)).2
  · exact ((c9_duration_validation initPlayer 1 1 "I AGREE" "99").2 99 rfl (by norm_num)
      rfl rfl).1

/-- C10: both the EARRAPE panel button and the confirmation modal reject a
user whose id differs from the stored requester id, with the
volume-amplification path never reached (the player is returned
untouched); amplification can only be reached when the submitter id equals
the requester id and the stripped, uppercased confirmation text is exactly
`I AGREE`. -/
theorem c10_requester_gate (player : Player) (rid uid : Nat) (c d : String) :
    (uid ≠ rid →
      earrape_button rid uid = .rejected ∧
      (on_submit player rid uid c d).1 = .notRequester ∧
      (on_submit player rid uid c d).2 = player) ∧
    (∀ dur, (on_submit player rid uid c d).1 = .activated dur →
      uid = rid ∧ pyUpper (pyStrip c.toList) = "I AGREE".toList) := by
  constructor
  · intro h
    rw [on_submit_not_req player rid uid c d h]
    exact ⟨by simp [earrape_button, h], rfl, rfl⟩
  · intro dur hact
    by_cases h1 : uid = rid
    · by_cases h2 : pyUpper (pyStrip c.toList) = "I AGREE".toList
      · exact ⟨h1, h2⟩
      · rw [on_submit_bad_confirm player rid uid c d h1 h2] at hact
        simp at hact
    · rw [on_submit_not_req player rid uid c d h1] at hact
      simp at hact

/-- Witness for C10: user 2 pressing user 1's panel is rejected at both
gates, while the matching requester with the exact confirmation text
activates. -/
theorem c10_witness :
    (2 : Nat) ≠ 1 ∧
    earrape_button 1 2 = .rejected ∧
    (on_submit initPlayer 1 2 "I AGREE" "5").1 = .notRequester ∧
    (on_submit initPlayer 1 1 "I AGREE" "5").1 = .activated 5 ∧
    pyUpper (pyStrip "I AGREE".toList) = "I AGREE".toList := by
  have h := (c10_requester_gate initPlayer 1 2 "I AGREE" "5").1 (by decide)
  have h2 := (c10_requester_gate initPlayer 1 1 "I AGREE" "5").2 5 rfl
  exact ⟨by decide, h.1, h.2.1, rfl, h2.2⟩

/-- C2 counterexample: the claim says that with queue-loop each
track-ended appends the just-finished track to the tail of the queue
before popping the new head, so from current trackA and queue
[trackB, trackC] the handler would leave queue [trackC, trackA].  The
code's loop state is the boolean `player.loop`, whose two values exhaust
every loop mode the code has: with `loop = False` the handler leaves queue
[trackC] (the finished track is discarded), and with `loop = True` it
leaves queue [trackB, trackC] (the same track replays, the queue is
untouched) -- neither appends the finished track.  Moreover three
completions from [trackA, trackB, trackC] end with no current track
instead of cycling back to trackA. -/
theorem c2_counterexample :
    (on_wavelink_track_end
        { initPlayer with current := some trackA, queue := [trackB, trackC] }
        trackA false).queue ≠ [trackC, trackA] ∧
    (on_wavelink_track_end
        { initPlayer with loop := true, current := some trackA, queue := [trackB, trackC] }
        trackA false).queue ≠ [trackC, trackA] ∧
    (on_wavelink_track_end
        (on_wavelink_track_end
          (on_wavelink_track_end
            { initPlayer with current := some trackA, queue := [trackB, trackC] }
            trackA false)
          trackB false)
        trackC false).current = none := by
  decide

/-- C2 amended: the code has no queue-loop mode.  With `loop = false`,
`track-ended` discards the finished track and pops the head of the queue
into `current`; the finished track is never re-appended, so a queue plays
through once and then goes idle rather than cycling. -/
theorem c2_amended_no_queue_cycle (p : Player) (t nxt : Track) (rest : List Track)
    (hl : p.loop = false) (hq : p.queue = nxt :: rest) :
    (on_wavelink_track_end p t false).current = some nxt ∧
    (on_wavelink_track_end p t false).queue = rest := by
  cases p
  subst hl
  subst hq
  exact ⟨rfl, rfl⟩

/-- Witness for the amended C2 at a concrete player. -/
theorem c2_witness :
    ({ initPlayer with current := some trackA, queue := [trackB, trackC] } : Player).loop
        = false ∧
    (on_wavelink_track_end
        { initPlayer with current := some trackA, queue := [trackB, trackC] }
        trackA false).current = some trackB ∧
    (on_wavelink_track_end
        { initPlayer with current := some trackA, queue := [trackB, trackC] }
        trackA false).queue = [trackC] := by
  have h := c2_amended_no_queue_cycle
    { initPlayer with current := some trackA, queue := [trackB, trackC] }
    trackA trackB [trackC] rfl rfl
  exact ⟨rfl, h.1, h.2⟩

/-- C7 counterexample: the claim says the second consecutive `stop`
surfaces no error to the user, but on the second invocation
`ctx.voice_client` is gone and `cmd_stop` replies with the
`Not connected.` error (src/bot.py lines 536-538), a different reply from
the success message of the first invocation. -/
theorem c7_counterexample :
    (cmd_stop (cmd_stop (some initPlayer)).1).2 = "Not connected." ∧
    (cmd_stop (some initPlayer)).2 ≠ "Not connected." := by
  constructor
  · rfl
  · decide

/-- C7 amended: the first `stop` disconnects and tears down the session
(the guild's voice client becomes absent, destroying queue and current)
without consulting the 24/7 flag, and a second `stop` is a no-op on state
-- but it replies with the `Not connected.` error message; an armed idle
timer is not cancelled by `stop`, yet once the player is disconnected its
firing is always a no-op. -/
theorem c7_amended_stop_state_idempotent (vc : Option Player) (p : Player) :
    (cmd_stop (some p)).1 = none ∧
    (cmd_stop (cmd_stop vc).1).1 = (cmd_stop vc).1 ∧
    (cmd_stop (cmd_stop vc).1).2 = "Not connected." ∧
    (∀ tm s playing qe, timer_fire tm s playing false qe = false) := by
  refine ⟨rfl, ?_, ?_, ?_⟩
  · cases vc <;> rfl
  · cases vc <;> rfl
  · intro tm s playing qe
    cases playing <;> rfl

/-- C8 counterexample: the claim says `set-volume` reports success and
records the attempted (clamped) volume for every input even when the node
rejects the value; but when the node rejects, `cmd_volume` replies with
the node-error message instead of the success message and leaves
`custom_volume` unchanged (src/bot.py lines 569-574). -/
theorem c8_counterexample :
    (cmd_volume initPlayer 50 false).2 = "Could not set volume on the node." ∧
    (cmd_volume initPlayer 50 false).1.custom_volume = 100 ∧
    (cmd_volume initPlayer 50 true).2 = "Volume set to 50%" ∧
    (cmd_volume initPlayer 50 true).1.custom_volume = 50 := by
  exact ⟨rfl, rfl, by decide, by decide⟩

/-- C8 amended: when the node accepts, `cmd_volume` reports success and
records the clamped input; when the node rejects, it reports the node
error and leaves the stored volume unchanged.  The `Vol +` button, by
contrast, reports success regardless of node acceptance while recording
the attempted value only on acceptance. -/
theorem c8_amended_best_effort (p : Player) (v : Int) :
    (cmd_volume p v true).1.custom_volume = max 0 (min v 1000) ∧
    (cmd_volume p v true).2 = "Volume set to " ++ toString (max 0 (min v 1000)) ++ "%" ∧
    (cmd_volume p v false).1 = p ∧
    (cmd_volume p v false).2 = "Could not set volume on the node." ∧
    (vol_up p false).1 = p ∧
    (vol_up p false).2 = "Volume set to " ++ toString (min 1000 (p.custom_volume + 10)) ++ "%" ∧
    (vol_up p true).1.custom_volume = min 1000 (p.custom_volume + 10) := by
  exact ⟨rfl, rfl, rfl, rfl, rfl, rfl, rfl⟩
